import Mathlib

/-!
Verification of the SAIL image framework core against its sources.

This file shallowly embeds the parts of the SAIL sources relevant to the
checked properties:

* `src/libsail-manip/convert_to_64.c` — the pixel conversion engine that
  converts supported source pixel formats to one of the eight 64-bit RGBA-kind
  channel permutations;
* `src/libsail/src/plugin_info_private.c` — codec capability-descriptor
  consistency checks;
* `src/sail-codecs/pcx/pcx.c` — the PCX codec's read-side lifecycle entry
  points.

Machine integers are modelled as `Nat` with explicit truncation: a read
through a `uint8_t` pointer is reduced `% 256`, a read or store through a
`uint16_t` pointer `% 65536`.  Pixel buffers are lists of storage units:
lists of bytes for byte-addressed source formats and lists of 16-bit words
for word-addressed ones, mirroring the pointer casts performed by the C code.
Fallible C functions returning `sail_status_t` become `Except SailError`.
-/

/-- Status codes from the SAIL error taxonomy (error.h); only the
constructors exercised by the embedded code are modelled. -/
inductive SailError where
  | memoryAllocationFailed
  | invalidArgument
  | brokenImage
  | unsupportedPixelFormat
  | incompletePluginInfo
  | noMoreFrames
  | notImplemented
  | ioError
  deriving DecidableEq, Repr

/-- The canonical pixel-format tag set (the members referenced by the
embedded sources). -/
inductive SailPixelFormat where
  | UNKNOWN
  | BPP1_INDEXED
  | BPP1_GRAYSCALE
  | BPP2_INDEXED
  | BPP2_GRAYSCALE
  | BPP4_INDEXED
  | BPP4_GRAYSCALE
  | BPP8_INDEXED
  | BPP8_GRAYSCALE
  | BPP16_GRAYSCALE
  | BPP16_GRAYSCALE_ALPHA
  | BPP32_GRAYSCALE_ALPHA
  | BPP16_RGB555
  | BPP16_BGR555
  | BPP16_RGBA
  | BPP24_RGB
  | BPP24_BGR
  | BPP48_RGB
  | BPP48_BGR
  | BPP32_RGBX
  | BPP32_BGRX
  | BPP32_XRGB
  | BPP32_XBGR
  | BPP32_RGBA
  | BPP32_BGRA
  | BPP32_ARGB
  | BPP32_ABGR
  | BPP64_RGBX
  | BPP64_BGRX
  | BPP64_XRGB
  | BPP64_XBGR
  | BPP64_RGBA
  | BPP64_BGRA
  | BPP64_ARGB
  | BPP64_ABGR
  | BPP32_CMYK
  | BPP24_YCBCR
  deriving DecidableEq, Repr, Fintype

open SailPixelFormat

/-- Reading a byte through a `uint8_t` pointer: buffer unit reduced mod 256. -/
def byteAt (l : List Nat) (i : Nat) : Nat := l.getD i 0 % 256

/-- Reading a 16-bit word through a `uint16_t` pointer: unit reduced mod 65536. -/
def wordAt (l : List Nat) (i : Nat) : Nat := l.getD i 0 % 65536

/-- The `sail_rgba64_t` struct: four `uint16_t` components. -/
structure Rgba64 where
  component1 : Nat
  component2 : Nat
  component3 : Nat
  component4 : Nat
  deriving DecidableEq, Repr

/-- The `sail_palette` struct: pixel format tag, declared color count and the
raw entry bytes. -/
structure sail_palette where
  pixel_format : SailPixelFormat
  color_count : Nat
  data : List Nat
  deriving DecidableEq, Repr

/-- The `sail_image` struct fields used by the conversion engine.  `pixels`
holds bytes for byte-addressed formats and 16-bit words for word-addressed
formats, matching the casts the C code performs on the `void *pixels`. -/
structure sail_image where
  width : Nat
  height : Nat
  pixel_format : SailPixelFormat
  bytes_per_line : Nat
  pixels : List Nat
  palette : Option sail_palette
  deriving DecidableEq, Repr

/-- Whether a format is palette-indexed (used by the modelled image validity
check: the conversion engine dereferences `image_input->palette`
unconditionally for indexed formats). -/
def SailPixelFormat.isIndexed : SailPixelFormat → Bool
  | BPP1_INDEXED | BPP2_INDEXED | BPP4_INDEXED | BPP8_INDEXED => true
  | _ => false

/-- Bits per pixel of each format, as encoded in the format names.
Modelled from the spec: the `sail_bits_per_pixel` utility is not part of
these sources; the spec's closed format enumeration names each format by its
bit depth (BPP1..BPP64). -/
def bitsPerPixel : SailPixelFormat → Nat
  | UNKNOWN => 0
  | BPP1_INDEXED | BPP1_GRAYSCALE => 1
  | BPP2_INDEXED | BPP2_GRAYSCALE => 2
  | BPP4_INDEXED | BPP4_GRAYSCALE => 4
  | BPP8_INDEXED | BPP8_GRAYSCALE => 8
  | BPP16_GRAYSCALE | BPP16_GRAYSCALE_ALPHA | BPP16_RGB555 | BPP16_BGR555
  | BPP16_RGBA => 16
  | BPP24_RGB | BPP24_BGR | BPP24_YCBCR => 24
  | BPP32_GRAYSCALE_ALPHA | BPP32_RGBX | BPP32_BGRX | BPP32_XRGB | BPP32_XBGR
  | BPP32_RGBA | BPP32_BGRA | BPP32_ARGB | BPP32_ABGR | BPP32_CMYK => 32
  | BPP48_RGB | BPP48_BGR => 48
  | BPP64_RGBX | BPP64_BGRX | BPP64_XRGB | BPP64_XBGR
  | BPP64_RGBA | BPP64_BGRA | BPP64_ARGB | BPP64_ABGR => 64

/-- Modelled from the spec: the `sail_bytes_per_line` utility (outside these
sources) computes a stride from width and format alone — the number of bytes
needed for `width` samples at the format's bit depth. -/
def sail_bytes_per_line (width : Nat) (pf : SailPixelFormat) : Except SailError Nat :=
  .ok ((width * bitsPerPixel pf + 7) / 8)

/-- Modelled from the spec: `sail_greater_equal_bits_per_pixel` (outside
these sources) reports whether the first format's bit depth is greater than
or equal to the second's — the "fits into existing allocation" test. -/
def sail_greater_equal_bits_per_pixel (pf1 pf2 : SailPixelFormat) :
    Except SailError Bool :=
  .ok (bitsPerPixel pf2 ≤ bitsPerPixel pf1)

/-- Modelled from the spec: `sail_check_image_valid` (outside these sources)
rejects images with null/zero fields; for indexed formats the palette must be
present since the engine dereferences it unconditionally. -/
def sail_check_image_valid (img : sail_image) : Except SailError Unit :=
  if 0 < img.width ∧ 0 < img.height ∧ 0 < img.bytes_per_line ∧
      (img.pixel_format.isIndexed → img.palette.isSome = true) then
    .ok ()
  else
    .error .invalidArgument

/-- The external CMYK and YCbCr conversion collaborators (`cmyk.h`,
`ycbcr.h`), out of scope per the spec; the engine is parametrized by them.
Each returns three 8-bit channel outputs (reduced mod 256 at use). -/
structure ManipCollaborators where
  cmyk : Nat → Nat → Nat → Nat → Nat × Nat × Nat
  ycbcr : Nat → Nat → Nat → Nat × Nat × Nat

/-- A trivial collaborator instance used for concrete evaluations. -/
def zeroCollaborators : ManipCollaborators :=
  { cmyk := fun _ _ _ _ => (0, 0, 0), ycbcr := fun _ _ _ => (0, 0, 0) }

/-- `verify_and_construct_rgba64_indexes` (convert_to_64.c lines 41-62): the
fixed table mapping each of the eight 64-bit output tags to the
(red, green, blue, alpha-or-(-1)) channel slots. -/
def verify_and_construct_rgba64_indexes (output_pixel_format : SailPixelFormat) :
    Except SailError (Nat × Nat × Nat × Int) :=
  match output_pixel_format with
  | BPP64_RGBX => .ok (0, 1, 2, -1)
  | BPP64_BGRX => .ok (2, 1, 0, -1)
  | BPP64_XRGB => .ok (1, 2, 3, -1)
  | BPP64_XBGR => .ok (3, 2, 1, -1)
  | BPP64_RGBA => .ok (0, 1, 2, 3)
  | BPP64_BGRA => .ok (2, 1, 0, 3)
  | BPP64_ARGB => .ok (1, 2, 3, 0)
  | BPP64_ABGR => .ok (3, 2, 1, 0)
  | _ => .error .unsupportedPixelFormat

/-- `get_palette_rgba64` (convert_to_64.c lines 64-98).  The in-out `color`
argument is threaded explicitly: on the unsupported-palette-format default
branch the C code logs an error but falls through to `return SAIL_OK`
leaving `*color` untouched, so the prior value is returned unchanged. -/
def get_palette_rgba64 (palette : sail_palette) (index : Nat) (color : Rgba64) :
    Except SailError Rgba64 :=
  if palette.color_count ≤ index then
    .error .brokenImage
  else
    match palette.pixel_format with
    | BPP24_RGB =>
        .ok { component1 := byteAt palette.data (index * 3) * 257
              component2 := byteAt palette.data (index * 3 + 1) * 257
              component3 := byteAt palette.data (index * 3 + 2) * 257
              component4 := 65535 }
    | BPP32_RGBA =>
        .ok { component1 := byteAt palette.data (index * 4) * 257
              component2 := byteAt palette.data (index * 4 + 1) * 257
              component3 := byteAt palette.data (index * 4 + 2) * 257
              component4 := byteAt palette.data (index * 4 + 3) * 257 }
    | _ => .ok color

/-- `spread_gray8_to_rgba64` (convert_to_64.c lines 100-104); the argument is
a `uint8_t`, hence the mod-256 reduction at the parameter. -/
def spread_gray8_to_rgba64 (value : Nat) : Rgba64 :=
  let v := value % 256
  { component1 := v * 257, component2 := v * 257, component3 := v * 257
    component4 := 65535 }

/-- `spread_gray16_to_rgba64` (convert_to_64.c lines 106-110). -/
def spread_gray16_to_rgba64 (value : Nat) : Rgba64 :=
  let v := value % 65536
  { component1 := v, component2 := v, component3 := v, component4 := 65535 }

/-- `fill_rgba64_pixel` (convert_to_64.c lines 112-120) expressed as the list
of word stores it performs at the given pixel base: it writes the red, green
and blue slots, and the alpha slot only when `a >= 0`. -/
def fill_rgba64_pixel (base r g b : Nat) (a : Int) (rv gv bv av : Nat) :
    List (Nat × Nat) :=
  [(base + r, rv), (base + g, gv), (base + b, bv)] ++
    (if 0 ≤ a then [(base + a.toNat, av)] else [])

/-- Applies a list of `uint16_t` stores to a word buffer in program order;
each store truncates mod 65536 and an out-of-bounds `List.set` is a no-op
(stores produced by the embedded code stay in bounds for well-formed calls). -/
def applyWrites (buf : List Nat) (ws : List (Nat × Nat)) : List Nat :=
  ws.foldl (fun acc w => acc.set w.1 (w.2 % 65536)) buf

/-- The stores of one output scan line: pixel `p` of the row is filled at
word base `rowBase + 4 * p` from the p-th source quadruple, mirroring the
`scan_output += 4` pointer walk shared by every scan-filling loop. -/
def scanWrites (rowBase r g b : Nat) (a : Int) (vals : List Rgba64) :
    List (Nat × Nat) :=
  vals.enum.flatMap fun pv =>
    fill_rgba64_pixel (rowBase + 4 * pv.1) r g b a
      pv.2.component1 pv.2.component2 pv.2.component3 pv.2.component4

/-- Per-pixel quadruples of `fill_rgba64_scan_from_rgb24_kind`
(convert_to_64.c lines 122-129): three bytes per pixel, each channel byte
promoted by the exact 257 multiplier, alpha forced opaque. -/
def vals_rgb24_kind (input : List Nat) (inBase width ri gi bi : Nat) :
    List Rgba64 :=
  (List.range width).map fun p =>
    { component1 := byteAt input (inBase + 3 * p + ri) * 257
      component2 := byteAt input (inBase + 3 * p + gi) * 257
      component3 := byteAt input (inBase + 3 * p + bi) * 257
      component4 := 65535 }

/-- Per-pixel quadruples of `fill_rgba64_scan_from_rgba32_kind`
(convert_to_64.c lines 131-138): four bytes per pixel, all four channels
promoted by 257. -/
def vals_rgba32_kind (input : List Nat) (inBase width ri gi bi ai : Nat) :
    List Rgba64 :=
  (List.range width).map fun p =>
    { component1 := byteAt input (inBase + 4 * p + ri) * 257
      component2 := byteAt input (inBase + 4 * p + gi) * 257
      component3 := byteAt input (inBase + 4 * p + bi) * 257
      component4 := byteAt input (inBase + 4 * p + ai) * 257 }

/-- Per-pixel quadruples of `fill_rgba64_scan_from_rgbx32_kind`
(convert_to_64.c lines 140-147): four bytes per pixel, color channels
promoted by 257, alpha forced opaque. -/
def vals_rgbx32_kind (input : List Nat) (inBase width ri gi bi : Nat) :
    List Rgba64 :=
  (List.range width).map fun p =>
    { component1 := byteAt input (inBase + 4 * p + ri) * 257
      component2 := byteAt input (inBase + 4 * p + gi) * 257
      component3 := byteAt input (inBase + 4 * p + bi) * 257
      component4 := 65535 }

/-- Per-pixel quadruples of `fill_rgba64_scan_from_rgb48_kind`
(convert_to_64.c lines 149-156): three 16-bit words per pixel; note the C
code multiplies the 16-bit channels by 257 and stores through `uint16_t`,
so the store truncation applies. -/
def vals_rgb48_kind (input : List Nat) (inBase width ri gi bi : Nat) :
    List Rgba64 :=
  (List.range width).map fun p =>
    { component1 := wordAt input (inBase + 3 * p + ri) * 257
      component2 := wordAt input (inBase + 3 * p + gi) * 257
      component3 := wordAt input (inBase + 3 * p + bi) * 257
      component4 := 65535 }

/-- Per-pixel quadruples of `fill_rgba64_scan_from_rgba64_kind`
(convert_to_64.c lines 158-165): four words per pixel copied unscaled. -/
def vals_rgba64_kind (input : List Nat) (inBase width ri gi bi ai : Nat) :
    List Rgba64 :=
  (List.range width).map fun p =>
    { component1 := wordAt input (inBase + 4 * p + ri)
      component2 := wordAt input (inBase + 4 * p + gi)
      component3 := wordAt input (inBase + 4 * p + bi)
      component4 := wordAt input (inBase + 4 * p + ai) }

/-- Per-pixel quadruples of `fill_rgba64_scan_from_rgbx64_kind`
(convert_to_64.c lines 167-174): four words per pixel, alpha argument forced
opaque. -/
def vals_rgbx64_kind (input : List Nat) (inBase width ri gi bi : Nat) :
    List Rgba64 :=
  (List.range width).map fun p =>
    { component1 := wordAt input (inBase + 4 * p + ri)
      component2 := wordAt input (inBase + 4 * p + gi)
      component3 := wordAt input (inBase + 4 * p + bi)
      component4 := 65535 }

/-- Closed form of the bit-unpacking loops of `to_bpp64_rgba_kind`
(convert_to_64.c lines 185-268): for sub-byte depths `bpp ∈ {1,2,4}` the C
code walks the row byte by byte, extracting `8/bpp` samples per byte from
the most significant bits downwards (`bit_mask` starts at the top and
shifts right by `bpp` each step, stopping at `width` samples).  Sample `p`
therefore comes from byte `p / (8/bpp)`, field `p % (8/bpp)` counted from
the MSB. -/
def unpackSamples (bpp : Nat) (input : List Nat) (inBase width : Nat) :
    List Nat :=
  (List.range width).map fun p =>
    (byteAt input (inBase + p / (8 / bpp)) >>>
        (8 - bpp * (p % (8 / bpp) + 1))) &&& ((1 <<< bpp) - 1)

/-- The palette-resolution loop body shared by the indexed branches of
`to_bpp64_rgba_kind`: resolves each sample through `get_palette_rgba64`,
threading the single `sail_rgba64_t rgba` local of `to_bpp64_rgba_kind`
(which an unsupported-palette "success" leaves at its previous value), and
aborting on the first failing sample as `SAIL_TRY` does. -/
def indexedVals (palette : sail_palette) :
    List Nat → Rgba64 → Except SailError (List Rgba64 × Rgba64)
  | [], rgba => .ok ([], rgba)
  | i :: rest, rgba =>
      (get_palette_rgba64 palette i rgba).bind fun c =>
        (indexedVals palette rest c).bind fun tr =>
          .ok (c :: tr.1, tr.2)

/-- The per-row quadruple computation of `to_bpp64_rgba_kind`
(convert_to_64.c lines 181-481): the per-source-format dispatch producing,
in pixel order, the (red, green, blue, alpha) quadruple each loop iteration
hands to `fill_rgba64_pixel`.  Byte-addressed sources index `pixels` at byte
offset `bytes_per_line * row`; word-addressed sources re-interpret that byte
offset as a word offset, mirroring the `(uint16_t *)((uint8_t *)pixels + ...)`
casts.  The threaded `rgba` local is only consumed by the indexed branches
(the pixel format is constant over the whole image, so its value never
crosses from one branch kind to another). -/
def rowVals (img : sail_image) (collab : ManipCollaborators) (row : Nat)
    (rgba : Rgba64) : Except SailError (List Rgba64 × Rgba64) :=
  let inByteBase := img.bytes_per_line * row
  let inWordBase := img.bytes_per_line * row / 2
  match img.pixel_format with
  | BPP1_INDEXED =>
      (match img.palette with
       | some palette =>
           indexedVals palette (unpackSamples 1 img.pixels inByteBase img.width) rgba
       | none => .error .invalidArgument)
  | BPP1_GRAYSCALE =>
      .ok ((unpackSamples 1 img.pixels inByteBase img.width).map (fun s =>
        spread_gray8_to_rgba64 (if s = 0 then 0 else 255)), rgba)
  | BPP2_INDEXED =>
      (match img.palette with
       | some palette =>
           indexedVals palette (unpackSamples 2 img.pixels inByteBase img.width) rgba
       | none => .error .invalidArgument)
  | BPP2_GRAYSCALE =>
      .ok ((unpackSamples 2 img.pixels inByteBase img.width).map (fun s =>
        spread_gray8_to_rgba64 (s * 85)), rgba)
  | BPP4_INDEXED =>
      (match img.palette with
       | some palette =>
           indexedVals palette (unpackSamples 4 img.pixels inByteBase img.width) rgba
       | none => .error .invalidArgument)
  | BPP4_GRAYSCALE =>
      .ok ((unpackSamples 4 img.pixels inByteBase img.width).map (fun s =>
        spread_gray8_to_rgba64 (s * 17)), rgba)
  | BPP8_INDEXED =>
      (match img.palette with
       | some palette =>
           indexedVals palette
             ((List.range img.width).map fun p => byteAt img.pixels (inByteBase + p))
             rgba
       | none => .error .invalidArgument)
  | BPP8_GRAYSCALE =>
      .ok ((List.range img.width).map (fun p =>
        spread_gray8_to_rgba64 (byteAt img.pixels (inByteBase + p))), rgba)
  | BPP16_GRAYSCALE =>
      .ok ((List.range img.width).map (fun p =>
        spread_gray16_to_rgba64 (wordAt img.pixels (inWordBase + p))), rgba)
  | BPP16_GRAYSCALE_ALPHA =>
      -- value/alpha byte pairs; spread then override component4 (lines 297-311)
      .ok ((List.range img.width).map (fun p =>
        { spread_gray8_to_rgba64 (byteAt img.pixels (inByteBase + 2 * p)) with
            component4 := byteAt img.pixels (inByteBase + 2 * p + 1) * 257 }), rgba)
  | BPP32_GRAYSCALE_ALPHA =>
      .ok ((List.range img.width).map (fun p =>
        { spread_gray16_to_rgba64 (wordAt img.pixels (inWordBase + 2 * p)) with
            component4 := wordAt img.pixels (inWordBase + 2 * p + 1) }), rgba)
  | BPP16_RGB555 =>
      .ok ((List.range img.width).map (fun p =>
        let w := wordAt img.pixels (inWordBase + p)
        { component1 := (((w >>> 0) &&& 0x1f) <<< 3) * 257
          component2 := (((w >>> 5) &&& 0x1f) <<< 3) * 257
          component3 := (((w >>> 10) &&& 0x1f) <<< 3) * 257
          component4 := 65535 }), rgba)
  | BPP16_BGR555 =>
      .ok ((List.range img.width).map (fun p =>
        let w := wordAt img.pixels (inWordBase + p)
        { component1 := (((w >>> 10) &&& 0x1f) <<< 3) * 257
          component2 := (((w >>> 5) &&& 0x1f) <<< 3) * 257
          component3 := (((w >>> 0) &&& 0x1f) <<< 3) * 257
          component4 := 65535 }), rgba)
  | BPP24_RGB => .ok (vals_rgb24_kind img.pixels inByteBase img.width 0 1 2, rgba)
  | BPP24_BGR => .ok (vals_rgb24_kind img.pixels inByteBase img.width 2 1 0, rgba)
  | BPP48_RGB => .ok (vals_rgb48_kind img.pixels inWordBase img.width 0 1 2, rgba)
  | BPP48_BGR => .ok (vals_rgb48_kind img.pixels inWordBase img.width 2 1 0, rgba)
  | BPP32_RGBX => .ok (vals_rgbx32_kind img.pixels inByteBase img.width 0 1 2, rgba)
  | BPP32_BGRX => .ok (vals_rgbx32_kind img.pixels inByteBase img.width 2 1 0, rgba)
  | BPP32_XRGB => .ok (vals_rgbx32_kind img.pixels inByteBase img.width 1 2 3, rgba)
  | BPP32_XBGR => .ok (vals_rgbx32_kind img.pixels inByteBase img.width 3 2 1, rgba)
  | BPP32_RGBA => .ok (vals_rgba32_kind img.pixels inByteBase img.width 0 1 2 3, rgba)
  | BPP32_BGRA => .ok (vals_rgba32_kind img.pixels inByteBase img.width 2 1 0 3, rgba)
  | BPP32_ARGB => .ok (vals_rgba32_kind img.pixels inByteBase img.width 1 2 3 0, rgba)
  | BPP32_ABGR => .ok (vals_rgba32_kind img.pixels inByteBase img.width 3 2 1 0, rgba)
  | BPP64_RGBX => .ok (vals_rgbx64_kind img.pixels inWordBase img.width 0 1 2, rgba)
  | BPP64_BGRX => .ok (vals_rgbx64_kind img.pixels inWordBase img.width 2 1 0, rgba)
  | BPP64_XRGB => .ok (vals_rgbx64_kind img.pixels inWordBase img.width 1 2 3, rgba)
  | BPP64_XBGR => .ok (vals_rgbx64_kind img.pixels inWordBase img.width 3 2 1, rgba)
  | BPP64_RGBA => .ok (vals_rgba64_kind img.pixels inWordBase img.width 0 1 2 3, rgba)
  | BPP64_BGRA => .ok (vals_rgba64_kind img.pixels inWordBase img.width 2 1 0 3, rgba)
  | BPP64_ARGB => .ok (vals_rgba64_kind img.pixels inWordBase img.width 1 2 3 0, rgba)
  | BPP64_ABGR => .ok (vals_rgba64_kind img.pixels inWordBase img.width 3 2 1 0, rgba)
  | BPP32_CMYK =>
      .ok ((List.range img.width).map (fun p =>
        let c := collab.cmyk (byteAt img.pixels (inByteBase + 4 * p))
          (byteAt img.pixels (inByteBase + 4 * p + 1))
          (byteAt img.pixels (inByteBase + 4 * p + 2))
          (byteAt img.pixels (inByteBase + 4 * p + 3))
        { component1 := c.1 % 256 * 257, component2 := c.2.1 % 256 * 257
          component3 := c.2.2 % 256 * 257, component4 := 65535 }), rgba)
  | BPP24_YCBCR =>
      .ok ((List.range img.width).map (fun p =>
        let c := collab.ycbcr (byteAt img.pixels (inByteBase + 3 * p))
          (byteAt img.pixels (inByteBase + 3 * p + 1))
          (byteAt img.pixels (inByteBase + 3 * p + 2))
        { component1 := c.1 % 256 * 257, component2 := c.2.1 % 256 * 257
          component3 := c.2.2 % 256 * 257, component4 := 65535 }), rgba)
  | _ => .error .unsupportedPixelFormat

/-- One row of `to_bpp64_rgba_kind`: the row's quadruples fed pixel by pixel
to `fill_rgba64_pixel` along the `scan_output += 4` walk starting at the
row's output base. -/
def rowWrites (img : sail_image) (collab : ManipCollaborators) (r g b : Nat)
    (a : Int) (out_bpl row : Nat) (rgba : Rgba64) :
    Except SailError (List (Nat × Nat) × Rgba64) :=
  (rowVals img collab row rgba).bind fun vr =>
    .ok (scanWrites (out_bpl * row / 2) r g b a vr.1, vr.2)

/-- The row loop of `to_bpp64_rgba_kind`, accumulating every store in
program order (row major) and threading the `rgba` local across rows. -/
def rowsWrites (img : sail_image) (collab : ManipCollaborators) (r g b : Nat)
    (a : Int) (out_bpl : Nat) :
    List Nat → Rgba64 → Except SailError (List (Nat × Nat))
  | [], _ => .ok []
  | row :: rest, rgba =>
      (rowWrites img collab r g b a out_bpl row rgba).bind fun wr =>
        (rowsWrites img collab r g b a out_bpl rest wr.2).bind fun tail =>
          .ok (wr.1 ++ tail)

/-- All stores of `to_bpp64_rgba_kind` (convert_to_64.c lines 176-484) for
the given output channel-slot indexes and output stride. -/
def to_bpp64_writes (img : sail_image) (collab : ManipCollaborators)
    (r g b : Nat) (a : Int) (out_bpl : Nat) (rgba0 : Rgba64) :
    Except SailError (List (Nat × Nat)) :=
  rowsWrites img collab r g b a out_bpl (List.range img.height) rgba0

/-- `to_bpp64_rgba_kind` as a transformer of the output word buffer: applies
every store to the buffer the caller supplies.  For the in-place entry point
the output buffer aliases the input; generating all stores against the input
snapshot is sound there because in-place conversion only proceeds for 64-bit
sources (the fits check), whose reads for a pixel all precede that pixel's
stores and never touch another pixel's slots.  `rgba0` models the
uninitialized `sail_rgba64_t rgba` local. -/
def to_bpp64_rgba_kind (img : sail_image) (collab : ManipCollaborators)
    (r g b : Nat) (a : Int) (out0 : List Nat) (out_bpl : Nat) (rgba0 : Rgba64) :
    Except SailError (List Nat) :=
  (to_bpp64_writes img collab r g b a out_bpl rgba0).bind fun ws =>
    .ok (applyWrites out0 ws)

/-- `sail_convert_image_to_bpp64_rgba_kind` (convert_to_64.c lines 490-516).
`fresh` stands for the words of the `sail_malloc` allocation for the output
pixels, whose contents C leaves unspecified. -/
def sail_convert_image_to_bpp64_rgba_kind (img : sail_image)
    (output_pixel_format : SailPixelFormat) (collab : ManipCollaborators)
    (fresh : List Nat) (rgba0 : Rgba64) : Except SailError sail_image :=
  (sail_check_image_valid img).bind fun _ =>
    (verify_and_construct_rgba64_indexes output_pixel_format).bind fun t =>
      (sail_bytes_per_line img.width output_pixel_format).bind fun out_bpl =>
        (to_bpp64_rgba_kind img collab t.1 t.2.1 t.2.2.1 t.2.2.2 fresh out_bpl
            rgba0).bind fun buf =>
          .ok { img with pixel_format := output_pixel_format,
                         bytes_per_line := out_bpl, pixels := buf }

/-- `sail_convert_image_to_bpp64_rgba_kind_in_place` (convert_to_64.c lines
518-548): same-format inputs return immediately; otherwise the target must
fit into the existing allocation (source bit depth at least the target's) or
the call fails with `UnsupportedPixelFormat`; the conversion then reuses the
image's own buffer and stride. -/
def sail_convert_image_to_bpp64_rgba_kind_in_place (img : sail_image)
    (output_pixel_format : SailPixelFormat) (collab : ManipCollaborators)
    (rgba0 : Rgba64) : Except SailError sail_image :=
  (sail_check_image_valid img).bind fun _ =>
    (verify_and_construct_rgba64_indexes output_pixel_format).bind fun t =>
      if img.pixel_format = output_pixel_format then
        .ok img
      else
        (sail_greater_equal_bits_per_pixel img.pixel_format
            output_pixel_format).bind fun fits =>
          if fits then
            (to_bpp64_rgba_kind img collab t.1 t.2.1 t.2.2.1 t.2.2.2 img.pixels
                img.bytes_per_line rgba0).bind fun buf =>
              .ok { img with pixel_format := output_pixel_format, pixels := buf }
          else
            .error .unsupportedPixelFormat

/-! ### Capability-descriptor consistency checks (plugin_info_private.c) -/

/-- Modelled from the spec: the plugin feature flag constants (header outside
these sources) are distinct single bits combined with bitwise or; only their
distinctness matters for the checks below. -/
def SAIL_PLUGIN_FEATURE_STATIC : Nat := 1

/-- Second modelled feature bit, see `SAIL_PLUGIN_FEATURE_STATIC`. -/
def SAIL_PLUGIN_FEATURE_ANIMATED : Nat := 2

/-- Third modelled feature bit, see `SAIL_PLUGIN_FEATURE_STATIC`. -/
def SAIL_PLUGIN_FEATURE_MULTIPAGED : Nat := 4

/-- The fields of `sail_read_features` consulted by `check_plugin_info`. -/
structure sail_read_features where
  input_pixel_formats_length : Nat
  output_pixel_formats_length : Nat
  features : Nat
  deriving DecidableEq, Repr

/-- The fields of `sail_write_features` consulted by `check_plugin_info`. -/
structure sail_write_features where
  input_pixel_formats_length : Nat
  output_pixel_formats_length : Nat
  features : Nat
  deriving DecidableEq, Repr

/-- `check_plugin_info` (plugin_info_private.c lines 304-346): the
cross-field consistency checks run over a parsed descriptor, each failing
with `SAIL_INCOMPLETE_PLUGIN_INFO`.  Note the write-direction feature-flag
check tests the OUTPUT format list, unlike the read-direction one which
tests the input list. -/
def check_plugin_info (read_features : sail_read_features)
    (write_features : sail_write_features) : Except SailError Unit :=
  if read_features.input_pixel_formats_length = 0 ∧
      read_features.output_pixel_formats_length ≠ 0 then
    .error .incompletePluginInfo
  else if read_features.input_pixel_formats_length ≠ 0 ∧
      read_features.output_pixel_formats_length = 0 then
    .error .incompletePluginInfo
  else if (read_features.features &&& SAIL_PLUGIN_FEATURE_STATIC ≠ 0 ∨
        read_features.features &&& SAIL_PLUGIN_FEATURE_ANIMATED ≠ 0 ∨
        read_features.features &&& SAIL_PLUGIN_FEATURE_MULTIPAGED ≠ 0) ∧
      read_features.input_pixel_formats_length = 0 then
    .error .incompletePluginInfo
  else if write_features.input_pixel_formats_length = 0 ∧
      write_features.output_pixel_formats_length ≠ 0 then
    .error .incompletePluginInfo
  else if write_features.input_pixel_formats_length ≠ 0 ∧
      write_features.output_pixel_formats_length = 0 then
    .error .incompletePluginInfo
  else if (write_features.features &&& SAIL_PLUGIN_FEATURE_STATIC ≠ 0 ∨
        write_features.features &&& SAIL_PLUGIN_FEATURE_ANIMATED ≠ 0 ∨
        write_features.features &&& SAIL_PLUGIN_FEATURE_MULTIPAGED ≠ 0) ∧
      write_features.output_pixel_formats_length = 0 then
    .error .incompletePluginInfo
  else
    .ok ()

/-! ### PCX codec read side (pcx.c) -/

/-- The PCX signature byte (pcx.c line 36). -/
def SAIL_PCX_SIGNATURE : Nat := 0x0A

/-- Modelled from the spec: the PCX encoding enumeration lives in the
codec's helpers outside these sources; the standard PCX encoding byte is 0
for uncompressed data and 1 for RLE, and only the comparison with the
no-encoding value matters to the embedded code. -/
def SAIL_PCX_NO_ENCODING : Nat := 0

/-- The `SailPcxHeader` fields consulted by pcx.c (the header itself is
parsed by helpers outside these sources). -/
structure SailPcxHeader where
  id : Nat
  encoding : Nat
  bits_per_plane : Nat
  planes : Nat
  palette_info : Nat
  bytes_per_line : Nat
  xmin : Nat
  ymin : Nat
  xmax : Nat
  ymax : Nat
  hdpi : Nat
  vdpi : Nat
  palette : List Nat
  deriving DecidableEq, Repr

/-- The codec-private `pcx_state` fields that drive control flow. -/
structure pcx_state where
  pcx_header : SailPcxHeader
  frame_read : Bool
  deriving DecidableEq, Repr

/-- Modelled from the spec: the codec's pixel-format resolution helper
(`pcx_private_sail_pixel_format`, outside these sources) maps the header's
(bits per plane, plane count, palette info) to the closed set of canonical
formats the codec handles — those its own `read_frame` dispatches on —
failing with `UnsupportedPixelFormat` for other combinations. -/
def pcx_private_sail_pixel_format (bits_per_plane planes palette_info : Nat) :
    Except SailError SailPixelFormat :=
  match bits_per_plane, planes with
  | 1, 1 => .ok BPP1_INDEXED
  | 4, 1 => .ok BPP4_INDEXED
  | 4, 4 => .ok BPP16_RGBA
  | 8, 1 => .ok (if palette_info = 2 then BPP8_GRAYSCALE else BPP8_INDEXED)
  | 8, 3 => .ok BPP24_RGB
  | 8, 4 => .ok BPP32_RGBA
  | _, _ => .error .unsupportedPixelFormat

/-- Modelled from the spec: the codec's palette builder
(`pcx_private_build_palette`, outside these sources) attaches a resolvable
palette to indexed frames and no palette otherwise. -/
def pcx_private_build_palette (pf : SailPixelFormat) (header_palette : List Nat) :
    Except SailError (Option sail_palette) :=
  if pf.isIndexed then
    .ok (some { pixel_format := BPP24_RGB,
                color_count := 1 <<< bitsPerPixel pf,
                data := header_palette })
  else
    .ok none

/-- `sail_codec_read_init_v6_pcx` (pcx.c lines 84-114), taking the header as
parsed by `pcx_private_read_header` (a helper outside these sources,
modelled from the spec as the fixed header read): rejects a wrong signature
byte or a zero bytes-per-line as `BrokenImage`, otherwise produces the
initial state with no frame consumed. -/
def sail_codec_read_init_v6_pcx (hdr : SailPcxHeader) :
    Except SailError pcx_state :=
  if hdr.id ≠ SAIL_PCX_SIGNATURE then .error .brokenImage
  else if hdr.bytes_per_line = 0 then .error .brokenImage
  else .ok { pcx_header := hdr, frame_read := false }

/-- `sail_codec_read_seek_next_frame_v6_pcx` (pcx.c lines 116-178).  The
state is returned alongside the result because the C code sets `frame_read`
before any fallible step, so even a failing first call consumes the single
frame.  Width and height come from the header corners (unsigned arithmetic;
in-range headers have `xmin <= xmax`, `ymin <= ymax`). -/
def sail_codec_read_seek_next_frame_v6_pcx (st : pcx_state) :
    pcx_state × Except SailError sail_image :=
  if st.frame_read then
    (st, .error .noMoreFrames)
  else
    let st' := { st with frame_read := true }
    let width := st.pcx_header.xmax - st.pcx_header.xmin + 1
    let height := st.pcx_header.ymax - st.pcx_header.ymin + 1
    (st',
      (pcx_private_sail_pixel_format st.pcx_header.bits_per_plane
          st.pcx_header.planes st.pcx_header.palette_info).bind fun pf =>
        (sail_bytes_per_line width pf).bind fun bpl =>
          (pcx_private_build_palette pf st.pcx_header.palette).bind fun pal =>
            .ok { width := width, height := height, pixel_format := pf,
                  bytes_per_line := bpl, pixels := [], palette := pal })

/-- The byte-stream collaborator (spec §6): a memory source with a read
position. -/
structure IoState where
  data : List Nat
  pos : Nat
  deriving DecidableEq, Repr

/-- The `strict_read` contract: succeeds only when exactly `n` bytes can be
read, advancing the position. -/
def io_strict_read (io : IoState) (n : Nat) :
    Except SailError (IoState × List Nat) :=
  if io.pos + n ≤ io.data.length then
    .ok ({ io with pos := io.pos + n }, (io.data.drop io.pos).take n)
  else
    .error .ioError

/-- The `seek(offset, SEEK_CUR)` contract for the forward skips pcx.c makes. -/
def io_seek_cur (io : IoState) (off : Nat) : Except SailError IoState :=
  .ok { io with pos := io.pos + off }

/-- Unsigned 32-bit subtraction, for the `unsigned` padding computations in
pcx.c (lines 194 and 206). -/
def usub32 (x y : Nat) : Nat := (x + 4294967296 - y % 4294967296) % 4294967296

/-- Stores a run of bytes into the pixel buffer starting at `off` (the
`strict_read` directly into the row scan at pcx.c line 199). -/
def writeBytesAt (buf : List Nat) (off : Nat) (bytes : List Nat) : List Nat :=
  bytes.enum.foldl (fun acc iv => acc.set (off + iv.1) iv.2) buf

/-- The uncompressed indexed/grayscale row loop of pcx.c lines 196-201: each
row reads `bytes_per_line` bytes into the row scan then skips the source
line padding. -/
def readRowsIndexed (pad bpl : Nat) :
    List Nat → IoState → List Nat → Except SailError (IoState × List Nat)
  | [], io, buf => .ok (io, buf)
  | row :: rest, io, buf =>
      (io_strict_read io bpl).bind fun ib =>
        (io_seek_cur ib.1 pad).bind fun io2 =>
          readRowsIndexed pad bpl rest io2 (writeBytesAt buf (bpl * row) ib.2)

/-- The planar scatter of pcx.c line 216: plane bytes of component `comp`
land at byte `rowOff + 3 * column + comp` of the interleaved row. -/
def scatterComponent (buf : List Nat) (rowOff comp : Nat) (bytes : List Nat) :
    List Nat :=
  bytes.enum.foldl (fun acc cv => acc.set (rowOff + cv.1 * 3 + comp) cv.2) buf

/-- The per-row component loop of pcx.c lines 211-218 for uncompressed
BPP24-RGB: reads one plane line per component, skips padding, interleaves. -/
def readRowRgb24 (width pad rowOff : Nat) :
    List Nat → IoState → List Nat → Except SailError (IoState × List Nat)
  | [], io, buf => .ok (io, buf)
  | comp :: rest, io, buf =>
      (io_strict_read io width).bind fun ib =>
        (io_seek_cur ib.1 pad).bind fun io2 =>
          readRowRgb24 width pad rowOff rest io2
            (scatterComponent buf rowOff comp ib.2)

/-- The row loop of pcx.c lines 208-219 for uncompressed BPP24-RGB. -/
def readRowsRgb24 (width pad bpl : Nat) :
    List Nat → IoState → List Nat → Except SailError (IoState × List Nat)
  | [], io, buf => .ok (io, buf)
  | row :: rest, io, buf =>
      (readRowRgb24 width pad (bpl * row) [0, 1, 2] io buf).bind fun ib =>
        readRowsRgb24 width pad bpl rest ib.1 ib.2

/-- Modelled from the spec: `sail_check_image_skeleton_valid` (outside these
sources) rejects frames whose dimensions or stride are missing. -/
def sail_check_image_skeleton_valid (img : sail_image) :
    Except SailError Unit :=
  if 0 < img.width ∧ 0 < img.height ∧ 0 < img.bytes_per_line then .ok ()
  else .error .invalidArgument

/-- `sail_codec_read_frame_v6_pcx` (pcx.c lines 180-232), returning the
final stream state and pixel buffer.  The RLE (`encoding` not equal to the
no-encoding value) branch body is empty, and the uncompressed switch neither
handles BPP16-RGBA/BPP32-RGBA (empty case) nor has a default, so those paths
return success touching neither the stream nor the buffer. -/
def sail_codec_read_frame_v6_pcx (st : pcx_state) (io : IoState)
    (image : sail_image) : Except SailError (IoState × List Nat) :=
  (sail_check_image_skeleton_valid image).bind fun _ =>
  if st.pcx_header.encoding = SAIL_PCX_NO_ENCODING then
    match image.pixel_format with
    | BPP1_INDEXED | BPP4_INDEXED | BPP8_INDEXED | BPP8_GRAYSCALE =>
        readRowsIndexed (usub32 st.pcx_header.bytes_per_line image.bytes_per_line)
          image.bytes_per_line (List.range image.height) io image.pixels
    | BPP24_RGB =>
        readRowsRgb24 image.width (usub32 st.pcx_header.bytes_per_line image.width)
          image.bytes_per_line (List.range image.height) io image.pixels
    | BPP16_RGBA | BPP32_RGBA => .ok (io, image.pixels)
    | _ => .ok (io, image.pixels)
  else
    .ok (io, image.pixels)

/-! ### Concrete instances used by witnesses and counterexamples -/

/-- A 1x1 8-bit indexed image whose 3-entry 24-bit RGB palette has first
entry (255, 0, 128) — the spec's worked example. -/
def imgIndexedExample : sail_image :=
  { width := 1, height := 1, pixel_format := BPP8_INDEXED, bytes_per_line := 1,
    pixels := [0],
    palette := some { pixel_format := BPP24_RGB, color_count := 3,
                      data := [255, 0, 128, 0, 0, 0, 1, 2, 3] } }

/-- A 1x1 24-bit RGB black image, used to exercise an alpha-less target. -/
def imgRgb24Example : sail_image :=
  { width := 1, height := 1, pixel_format := BPP24_RGB, bytes_per_line := 3,
    pixels := [0, 0, 0], palette := none }

/-- A 1x1 BPP64-RGBX image with pixel words (1, 2, 3, 9), used for the
same-format round-trip through the allocating entry point. -/
def imgRgbx64Example : sail_image :=
  { width := 1, height := 1, pixel_format := BPP64_RGBX, bytes_per_line := 8,
    pixels := [1, 2, 3, 9], palette := none }

/-- A 1x1 BPP64-RGBA image with pixel words (1, 2, 3, 9). -/
def imgRgba64Example : sail_image :=
  { width := 1, height := 1, pixel_format := BPP64_RGBA, bytes_per_line := 8,
    pixels := [1, 2, 3, 9], palette := none }

/-- A parsed PCX header for a supported single-frame stream: correct
signature, RLE encoding, 8 bits per plane over 3 planes (BPP24-RGB),
1x1 extent. -/
def pcxHeaderExample : SailPcxHeader :=
  { id := 0x0A, encoding := 1, bits_per_plane := 8, planes := 3,
    palette_info := 0, bytes_per_line := 2, xmin := 0, ymin := 0,
    xmax := 0, ymax := 0, hdpi := 72, vdpi := 72, palette := [] }

/-- A collaborator instance with fixed nonzero 8-bit outputs, used to
exercise the CMYK and YCbCr channel promotion end to end. -/
def constCollaborators : ManipCollaborators :=
  { cmyk := fun _ _ _ _ => (200, 10, 0), ycbcr := fun _ _ _ => (5, 255, 0) }

/-- A 1x1 BPP24-RGB image with pixel bytes (1, 2, 3). -/
def imgRgb24Pixel123 : sail_image :=
  { width := 1, height := 1, pixel_format := BPP24_RGB, bytes_per_line := 3,
    pixels := [1, 2, 3], palette := none }

/-- A 1x1 BPP32-RGBA image with pixel bytes (1, 2, 3, 4). -/
def imgRgba32Example : sail_image :=
  { width := 1, height := 1, pixel_format := BPP32_RGBA, bytes_per_line := 4,
    pixels := [1, 2, 3, 4], palette := none }

/-- A 1x1 BPP32-CMYK image (the pixel bytes do not matter to the fixed
collaborator above). -/
def imgCmykExample : sail_image :=
  { width := 1, height := 1, pixel_format := BPP32_CMYK, bytes_per_line := 4,
    pixels := [0, 0, 0, 0], palette := none }

/-- A 1x1 BPP24-YCbCr image. -/
def imgYcbcrExample : sail_image :=
  { width := 1, height := 1, pixel_format := BPP24_YCBCR, bytes_per_line := 3,
    pixels := [0, 0, 0], palette := none }

/-! ## General lemmas about the store machinery -/

theorem applyWrites_nil (buf : List Nat) : applyWrites buf [] = buf := rfl

theorem applyWrites_cons (buf : List Nat) (w : Nat × Nat) (ws : List (Nat × Nat)) :
    applyWrites buf (w :: ws) = applyWrites (buf.set w.1 (w.2 % 65536)) ws := rfl

theorem applyWrites_length (ws : List (Nat × Nat)) (buf : List Nat) :
    (applyWrites buf ws).length = buf.length := by
  induction ws generalizing buf with
  | nil => rfl
  | cons w ws ih => rw [applyWrites_cons, ih, List.length_set]

theorem applyWrites_getD_not_written (ws : List (Nat × Nat)) (buf : List Nat)
    (j d : Nat) (h : ∀ w ∈ ws, w.1 ≠ j) :
    (applyWrites buf ws).getD j d = buf.getD j d := by
  induction ws generalizing buf with
  | nil => rfl
  | cons w ws ih =>
      rw [applyWrites_cons, ih _ (fun w' hw' => h w' (List.mem_cons_of_mem _ hw'))]
      rw [List.getD_eq_getElem?_getD, List.getD_eq_getElem?_getD,
        List.getElem?_set_ne (h w (List.mem_cons_self _ _))]

theorem applyWrites_getD_covered (ws : List (Nat × Nat)) (buf : List Nat)
    (j d v : Nat) (hval : ∀ w ∈ ws, w.1 = j → w.2 % 65536 = v)
    (hcov : ∃ w ∈ ws, w.1 = j) (hj : j < buf.length) :
    (applyWrites buf ws).getD j d = v := by
  induction ws generalizing buf with
  | nil => simp at hcov
  | cons w ws ih =>
      rw [applyWrites_cons]
      by_cases htail : ∃ w' ∈ ws, w'.1 = j
      · exact ih _ (fun w' hw' => hval w' (List.mem_cons_of_mem _ hw')) htail
          (by rw [List.length_set]; exact hj)
      · obtain ⟨w', hw', hj'⟩ := hcov
        rcases List.mem_cons.mp hw' with h1 | h1
        · subst h1
          rw [applyWrites_getD_not_written ws _ j d
            (fun w2 hw2 he => htail ⟨w2, hw2, he⟩)]
          rw [List.getD_eq_getElem?_getD, hj',
            List.getElem?_set_self hj]
          simpa using hval w' (List.mem_cons_self _ _) hj'
        · exact absurd ⟨w', h1, hj'⟩ htail

/-! ## Claim theorems -/

/-- C3: resolving a palette index during conversion fails with `BrokenImage`
exactly when the index reaches the palette's declared color count (and that
is the only failure the resolver produces), while the last in-range index
`color_count - 1` resolves successfully — no silent clamping. -/
theorem get_palette_rgba64_bounds (palette : sail_palette) (index : Nat)
    (color : Rgba64) :
    ((get_palette_rgba64 palette index color = .error .brokenImage) ↔
      palette.color_count ≤ index) ∧
    ((∃ e, get_palette_rgba64 palette index color = .error e) ↔
      palette.color_count ≤ index) ∧
    (0 < palette.color_count →
      ∃ c, get_palette_rgba64 palette (palette.color_count - 1) color = .ok c) := by
  have hok : ∀ i, ¬ palette.color_count ≤ i →
      ∃ c, get_palette_rgba64 palette i color = .ok c := by
    intro i hi
    unfold get_palette_rgba64
    rw [if_neg hi]
    cases hpf : palette.pixel_format <;> exact ⟨_, rfl⟩
  refine ⟨⟨fun h => ?_, fun h => ?_⟩, ⟨fun h => ?_, fun h => ?_⟩, fun hpos => ?_⟩
  · by_contra hlt
    obtain ⟨c, hc⟩ := hok index hlt
    rw [hc] at h
    exact Except.noConfusion h
  · unfold get_palette_rgba64
    rw [if_pos h]
  · obtain ⟨e, he⟩ := h
    by_contra hlt
    obtain ⟨c, hc⟩ := hok index hlt
    rw [hc] at he
    exact Except.noConfusion he
  · exact ⟨.brokenImage, by unfold get_palette_rgba64; rw [if_pos h]⟩
  · exact hok _ (by omega)

/-- Witness for C3 at a concrete 3-entry palette: index 3 is rejected as
`BrokenImage` and index 2 = color_count - 1 resolves. -/
theorem get_palette_rgba64_bounds_witness :
    (get_palette_rgba64
        { pixel_format := BPP24_RGB, color_count := 3,
          data := [255, 0, 128, 0, 0, 0, 1, 2, 3] } 3
        { component1 := 0, component2 := 0, component3 := 0, component4 := 0 } =
      .error .brokenImage) ∧
    ∃ c, get_palette_rgba64
        { pixel_format := BPP24_RGB, color_count := 3,
          data := [255, 0, 128, 0, 0, 0, 1, 2, 3] } 2
        { component1 := 0, component2 := 0, component3 := 0, component4 := 0 } =
      .ok c :=
  ⟨(get_palette_rgba64_bounds _ 3 _).1.mpr (by decide),
   (get_palette_rgba64_bounds _ 0 _).2.2 (by decide)⟩

/-- C4 (code-bug evidence): resolving an in-range index through a palette
whose entry format is neither BPP24-RGB nor BPP32-RGBA returns `SAIL_OK`
with the output color left untouched — the default branch only logs — where
the claim (and the function's own error log) require an
`UnsupportedPixelFormat` failure. -/
theorem get_palette_rgba64_unsupported_silent_success :
    get_palette_rgba64
        { pixel_format := BPP24_BGR, color_count := 1, data := [10, 20, 30] } 0
        { component1 := 1, component2 := 2, component3 := 3, component4 := 4 } =
      .ok { component1 := 1, component2 := 2, component3 := 3, component4 := 4 } ∧
    (Except.ok { component1 := 1, component2 := 2, component3 := 3, component4 := 4 } :
        Except SailError Rgba64) ≠
      .error .unsupportedPixelFormat :=
  ⟨rfl, fun h => Except.noConfusion h⟩

/-- C5: for each direction independently, declaring output pixel formats
with an empty input list (or input formats with an empty output list) makes
descriptor validation fail with `IncompleteCapabilities`. -/
theorem check_plugin_info_pairing (rf : sail_read_features)
    (wf : sail_write_features) :
    ((rf.output_pixel_formats_length ≠ 0 ∧ rf.input_pixel_formats_length = 0) →
      check_plugin_info rf wf = .error .incompletePluginInfo) ∧
    ((rf.input_pixel_formats_length ≠ 0 ∧ rf.output_pixel_formats_length = 0) →
      check_plugin_info rf wf = .error .incompletePluginInfo) ∧
    ((wf.output_pixel_formats_length ≠ 0 ∧ wf.input_pixel_formats_length = 0) →
      check_plugin_info rf wf = .error .incompletePluginInfo) ∧
    ((wf.input_pixel_formats_length ≠ 0 ∧ wf.output_pixel_formats_length = 0) →
      check_plugin_info rf wf = .error .incompletePluginInfo) := by
  unfold check_plugin_info
  refine ⟨fun h => ?_, fun h => ?_, fun h => ?_, fun h => ?_⟩ <;>
    split_ifs <;> first | rfl | tauto

/-- Witness for C5: a read direction with outputs but no inputs is
rejected. -/
theorem check_plugin_info_pairing_witness :
    check_plugin_info
        { input_pixel_formats_length := 0, output_pixel_formats_length := 1,
          features := 0 }
        { input_pixel_formats_length := 1, output_pixel_formats_length := 1,
          features := 0 } =
      .error .incompletePluginInfo :=
  (check_plugin_info_pairing _ _).1 (by exact ⟨by decide, rfl⟩)

/-- C6: a direction declaring the static, animated or multi-paged feature
flag while its input pixel-format list is empty fails descriptor validation
with `IncompleteCapabilities` (for the write direction this follows from the
combination of the pairing check and the write feature check). -/
theorem check_plugin_info_features_need_formats (rf : sail_read_features)
    (wf : sail_write_features) :
    (((rf.features &&& SAIL_PLUGIN_FEATURE_STATIC ≠ 0 ∨
        rf.features &&& SAIL_PLUGIN_FEATURE_ANIMATED ≠ 0 ∨
        rf.features &&& SAIL_PLUGIN_FEATURE_MULTIPAGED ≠ 0) ∧
      rf.input_pixel_formats_length = 0) →
      check_plugin_info rf wf = .error .incompletePluginInfo) ∧
    (((wf.features &&& SAIL_PLUGIN_FEATURE_STATIC ≠ 0 ∨
        wf.features &&& SAIL_PLUGIN_FEATURE_ANIMATED ≠ 0 ∨
        wf.features &&& SAIL_PLUGIN_FEATURE_MULTIPAGED ≠ 0) ∧
      wf.input_pixel_formats_length = 0) →
      check_plugin_info rf wf = .error .incompletePluginInfo) := by
  unfold check_plugin_info
  constructor <;> intro h <;> split_ifs <;> first | rfl | tauto

/-- Witness for C6: a write direction declaring the animated flag with no
input formats is rejected. -/
theorem check_plugin_info_features_witness :
    check_plugin_info
        { input_pixel_formats_length := 1, output_pixel_formats_length := 1,
          features := 0 }
        { input_pixel_formats_length := 0, output_pixel_formats_length := 1,
          features := SAIL_PLUGIN_FEATURE_ANIMATED } =
      .error .incompletePluginInfo :=
  (check_plugin_info_features_need_formats _ _).2 ⟨Or.inr (Or.inl (by decide)), rfl⟩

/-- C10: the PCX read_frame entry point returns success while leaving the
stream position and the destination pixel buffer untouched whenever the
header declares RLE encoding, and likewise for uncompressed frames of pixel
format BPP16-RGBA or BPP32-RGBA. -/
theorem pcx_read_frame_untouched (st : pcx_state) (io : IoState)
    (image : sail_image)
    (hskel : sail_check_image_skeleton_valid image = .ok ()) :
    (st.pcx_header.encoding ≠ SAIL_PCX_NO_ENCODING →
      sail_codec_read_frame_v6_pcx st io image = .ok (io, image.pixels)) ∧
    (st.pcx_header.encoding = SAIL_PCX_NO_ENCODING →
      (image.pixel_format = BPP16_RGBA ∨ image.pixel_format = BPP32_RGBA) →
      sail_codec_read_frame_v6_pcx st io image = .ok (io, image.pixels)) := by
  constructor
  · intro henc
    simp only [sail_codec_read_frame_v6_pcx, hskel, if_neg henc]
    rfl
  · intro henc himg
    rcases himg with h | h <;>
      · simp only [sail_codec_read_frame_v6_pcx, hskel, if_pos henc, h]
        rfl

/-- Witness for C10: an RLE header over a skeleton-valid BPP24-RGB frame
leaves the stream and buffer untouched. -/
theorem pcx_read_frame_untouched_witness :
    sail_codec_read_frame_v6_pcx { pcx_header := pcxHeaderExample, frame_read := true }
        { data := [1, 2, 3], pos := 0 } imgRgb24Example =
      .ok ({ data := [1, 2, 3], pos := 0 }, imgRgb24Example.pixels) :=
  (pcx_read_frame_untouched { pcx_header := pcxHeaderExample, frame_read := true }
    { data := [1, 2, 3], pos := 0 } imgRgb24Example rfl).1 (by decide)

theorem bind_of_ok {α β : Type} {e : Except SailError α} {v : α}
    (h : e = .ok v) (k : α → Except SailError β) : e.bind k = k v := by
  rw [h]; rfl

theorem bitsPerPixel_le_64 : ∀ pf : SailPixelFormat, bitsPerPixel pf ≤ 64 := by
  decide

theorem verify_ok_bits64 (opf : SailPixelFormat) (t : Nat × Nat × Nat × Int)
    (h : verify_and_construct_rgba64_indexes opf = .ok t) :
    bitsPerPixel opf = 64 := by
  cases opf <;> first | rfl | exact Except.noConfusion h

theorem bits64_cases : ∀ pf : SailPixelFormat, bitsPerPixel pf = 64 →
    pf = BPP64_RGBX ∨ pf = BPP64_BGRX ∨ pf = BPP64_XRGB ∨ pf = BPP64_XBGR ∨
    pf = BPP64_RGBA ∨ pf = BPP64_BGRA ∨ pf = BPP64_ARGB ∨ pf = BPP64_ABGR := by
  decide

theorem rowVals_ok_of_bits64 (img : sail_image) (collab : ManipCollaborators)
    (row : Nat) (rgba : Rgba64) (h : bitsPerPixel img.pixel_format = 64) :
    ∃ vals, rowVals img collab row rgba = .ok (vals, rgba) := by
  rcases bits64_cases _ h with h1 | h1 | h1 | h1 | h1 | h1 | h1 | h1 <;>
    · simp only [rowVals, h1]
      exact ⟨_, rfl⟩

theorem rowWrites_ok_of_rowVals (img : sail_image) (collab : ManipCollaborators)
    (r g b : Nat) (a : Int) (out_bpl row : Nat) (rgba : Rgba64)
    (vals : List Rgba64) (rgba' : Rgba64)
    (hv : rowVals img collab row rgba = .ok (vals, rgba')) :
    rowWrites img collab r g b a out_bpl row rgba =
      .ok (scanWrites (out_bpl * row / 2) r g b a vals, rgba') := by
  unfold rowWrites
  rw [bind_of_ok hv]

theorem rowsWrites_ok_of_bits64 (img : sail_image) (collab : ManipCollaborators)
    (r g b : Nat) (a : Int) (out_bpl : Nat)
    (h : bitsPerPixel img.pixel_format = 64) :
    ∀ (rows : List Nat) (rgba : Rgba64),
      ∃ ws, rowsWrites img collab r g b a out_bpl rows rgba = .ok ws := by
  intro rows
  induction rows with
  | nil => exact fun rgba => ⟨[], rfl⟩
  | cons t rest ih =>
      intro rgba
      obtain ⟨vals, hv⟩ := rowVals_ok_of_bits64 img collab t rgba h
      obtain ⟨ws, hw⟩ := ih rgba
      refine ⟨scanWrites (out_bpl * t / 2) r g b a vals ++ ws, ?_⟩
      unfold rowsWrites
      rw [bind_of_ok (rowWrites_ok_of_rowVals img collab r g b a out_bpl t rgba
        vals rgba hv)]
      rw [bind_of_ok hw]

/-- C7: for a valid image and an RGBA64-kind target, the in-place conversion
entry point fails with `UnsupportedPixelFormat` whenever the target's bits
per pixel exceed the source's; when the target fits it succeeds, reusing the
existing buffer (the pixel buffer's length never changes, so the existing
allocation is never grown or overrun). -/
theorem in_place_fit_check (img : sail_image) (opf : SailPixelFormat)
    (collab : ManipCollaborators) (rgba0 : Rgba64)
    (hvalid : sail_check_image_valid img = .ok ())
    (hperm : ∃ t, verify_and_construct_rgba64_indexes opf = .ok t) :
    (bitsPerPixel img.pixel_format < bitsPerPixel opf →
      sail_convert_image_to_bpp64_rgba_kind_in_place img opf collab rgba0 =
        .error .unsupportedPixelFormat) ∧
    (bitsPerPixel opf ≤ bitsPerPixel img.pixel_format →
      ∃ res, sail_convert_image_to_bpp64_rgba_kind_in_place img opf collab rgba0 =
        .ok res ∧ res.pixels.length = img.pixels.length) := by
  obtain ⟨t, ht⟩ := hperm
  constructor
  · intro hlt
    have hne : img.pixel_format ≠ opf := fun he => by rw [he] at hlt; omega
    unfold sail_convert_image_to_bpp64_rgba_kind_in_place
    rw [bind_of_ok hvalid, bind_of_ok ht, if_neg hne]
    unfold sail_greater_equal_bits_per_pixel
    rw [bind_of_ok rfl]
    rw [if_neg (by simp; omega)]
  · intro hle
    by_cases heq : img.pixel_format = opf
    · refine ⟨img, ?_, rfl⟩
      unfold sail_convert_image_to_bpp64_rgba_kind_in_place
      rw [bind_of_ok hvalid, bind_of_ok ht, if_pos heq]
    · have hb : bitsPerPixel img.pixel_format = 64 := by
        have h64 := verify_ok_bits64 opf _ ht
        have := bitsPerPixel_le_64 img.pixel_format
        omega
      obtain ⟨ws, hws⟩ := rowsWrites_ok_of_bits64 img collab t.1 t.2.1 t.2.2.1
        t.2.2.2 img.bytes_per_line hb (List.range img.height) rgba0
      refine ⟨{ img with pixel_format := opf, pixels := applyWrites img.pixels ws },
        ?_, ?_⟩
      · unfold sail_convert_image_to_bpp64_rgba_kind_in_place
        rw [bind_of_ok hvalid, bind_of_ok ht, if_neg heq]
        unfold sail_greater_equal_bits_per_pixel
        rw [bind_of_ok rfl]
        rw [if_pos (by simpa using hle)]
        unfold to_bpp64_rgba_kind to_bpp64_writes
        rw [bind_of_ok hws]
        rfl
      · exact applyWrites_length _ _

/-- Witness for C7: converting a 1x1 BPP24-RGB image in place to BPP64-RGBA
(64 bits do not fit in 24) fails with UnsupportedPixelFormat, and converting
a 1x1 BPP64-RGBA image in place to BPP64-BGRA succeeds without growing the
buffer. -/
theorem in_place_fit_check_witness :
    (sail_convert_image_to_bpp64_rgba_kind_in_place imgRgb24Example BPP64_RGBA
        zeroCollaborators ⟨0, 0, 0, 0⟩ = .error .unsupportedPixelFormat) ∧
    ∃ res, sail_convert_image_to_bpp64_rgba_kind_in_place imgRgba64Example
        BPP64_BGRA zeroCollaborators ⟨0, 0, 0, 0⟩ =
      .ok res ∧ res.pixels.length = imgRgba64Example.pixels.length :=
  ⟨(in_place_fit_check imgRgb24Example BPP64_RGBA zeroCollaborators _
      rfl ⟨(0, 1, 2, 3), rfl⟩).1 (by decide),
   (in_place_fit_check imgRgba64Example BPP64_BGRA zeroCollaborators _
      rfl ⟨(2, 1, 0, 3), rfl⟩).2 (by decide)⟩

/-- C9: after a successful init on a PCX stream whose header the codec
supports, the first seek_next_frame succeeds and returns an image descriptor
while marking the frame consumed; any call on a consumed state fails with
the dedicated NoMoreFrames condition and leaves the state unchanged, so
every subsequent call keeps failing with NoMoreFrames. -/
theorem pcx_single_frame_iteration (hdr : SailPcxHeader) (st0 : pcx_state)
    (hinit : sail_codec_read_init_v6_pcx hdr = .ok st0)
    (hsup : ∃ pf, pcx_private_sail_pixel_format hdr.bits_per_plane hdr.planes
      hdr.palette_info = .ok pf) :
    (∃ img, (sail_codec_read_seek_next_frame_v6_pcx st0).2 = .ok img) ∧
    (sail_codec_read_seek_next_frame_v6_pcx st0).1 =
      { pcx_header := hdr, frame_read := true } ∧
    (∀ st : pcx_state, st.frame_read = true →
      sail_codec_read_seek_next_frame_v6_pcx st = (st, .error .noMoreFrames)) := by
  obtain ⟨pf, hpf⟩ := hsup
  have hst : st0 = { pcx_header := hdr, frame_read := false } := by
    unfold sail_codec_read_init_v6_pcx at hinit
    split_ifs at hinit
    cases hinit
    rfl
  subst hst
  have hseek : (sail_codec_read_seek_next_frame_v6_pcx
      { pcx_header := hdr, frame_read := false }).2 =
      ((pcx_private_sail_pixel_format hdr.bits_per_plane hdr.planes
          hdr.palette_info).bind fun pf =>
        (sail_bytes_per_line (hdr.xmax - hdr.xmin + 1) pf).bind fun bpl =>
          (pcx_private_build_palette pf hdr.palette).bind fun pal =>
            Except.ok { width := hdr.xmax - hdr.xmin + 1,
                        height := hdr.ymax - hdr.ymin + 1, pixel_format := pf,
                        bytes_per_line := bpl, pixels := [],
                        palette := pal }) := rfl
  refine ⟨?_, rfl, fun st hst1 => ?_⟩
  · rw [hseek, bind_of_ok hpf, bind_of_ok (rfl :
      sail_bytes_per_line (hdr.xmax - hdr.xmin + 1) pf = .ok _)]
    unfold pcx_private_build_palette
    split <;> exact ⟨_, by rw [bind_of_ok rfl]⟩
  · unfold sail_codec_read_seek_next_frame_v6_pcx
    rw [if_pos hst1]

/-- Witness for C9 at a concrete supported header: the fresh state's first
seek succeeds, the state is marked consumed, and consumed states always
answer NoMoreFrames. -/
theorem pcx_single_frame_iteration_witness :
    (∃ img, (sail_codec_read_seek_next_frame_v6_pcx
        { pcx_header := pcxHeaderExample, frame_read := false }).2 = .ok img) ∧
    (sail_codec_read_seek_next_frame_v6_pcx
        { pcx_header := pcxHeaderExample, frame_read := false }).1 =
      { pcx_header := pcxHeaderExample, frame_read := true } ∧
    (∀ st : pcx_state, st.frame_read = true →
      sail_codec_read_seek_next_frame_v6_pcx st = (st, .error .noMoreFrames)) :=
  pcx_single_frame_iteration pcxHeaderExample
    { pcx_header := pcxHeaderExample, frame_read := false } rfl ⟨BPP24_RGB, rfl⟩

/-- C1: the conversion engine promotes every 8-bit channel value to 16 bits
by multiplying by exactly 257, at every site: the grayscale spread (0 maps
to 0 and 255 to 65535), 24-bit-RGB and 32-bit-RGBA palette entries, the
RGB24-kind and RGBA32-kind scan channels, and the CMYK and YCbCr
collaborator outputs; end to end, an 8-bit indexed pixel resolved through
palette entry (255, 0, 128) with target BPP64-RGBA yields the channel words
(65535, 0, 32896, 65535), and concrete RGB24, RGBA32, CMYK and YCbCr
conversions reproduce the ×257 scale bit for bit. -/
theorem promote_8bit_by_257 :
    (∀ v : Nat, v < 256 → spread_gray8_to_rgba64 v =
      ⟨v * 257, v * 257, v * 257, 65535⟩) ∧
    spread_gray8_to_rgba64 0 = ⟨0, 0, 0, 65535⟩ ∧
    spread_gray8_to_rgba64 255 = ⟨65535, 65535, 65535, 65535⟩ ∧
    (∀ (pal : sail_palette) (i : Nat) (c : Rgba64),
      pal.pixel_format = BPP24_RGB → i < pal.color_count →
      get_palette_rgba64 pal i c =
        .ok ⟨byteAt pal.data (i * 3) * 257, byteAt pal.data (i * 3 + 1) * 257,
             byteAt pal.data (i * 3 + 2) * 257, 65535⟩) ∧
    (∀ (pal : sail_palette) (i : Nat) (c : Rgba64),
      pal.pixel_format = BPP32_RGBA → i < pal.color_count →
      get_palette_rgba64 pal i c =
        .ok ⟨byteAt pal.data (i * 4) * 257, byteAt pal.data (i * 4 + 1) * 257,
             byteAt pal.data (i * 4 + 2) * 257,
             byteAt pal.data (i * 4 + 3) * 257⟩) ∧
    (∀ (input : List Nat) (inBase width ri gi bi p : Nat), p < width →
      (vals_rgb24_kind input inBase width ri gi bi).getD p ⟨0, 0, 0, 0⟩ =
        ⟨byteAt input (inBase + 3 * p + ri) * 257,
         byteAt input (inBase + 3 * p + gi) * 257,
         byteAt input (inBase + 3 * p + bi) * 257, 65535⟩) ∧
    (∀ (input : List Nat) (inBase width ri gi bi ai p : Nat), p < width →
      (vals_rgba32_kind input inBase width ri gi bi ai).getD p ⟨0, 0, 0, 0⟩ =
        ⟨byteAt input (inBase + 4 * p + ri) * 257,
         byteAt input (inBase + 4 * p + gi) * 257,
         byteAt input (inBase + 4 * p + bi) * 257,
         byteAt input (inBase + 4 * p + ai) * 257⟩) ∧
    (∀ (img : sail_image) (collab : ManipCollaborators) (row : Nat)
        (rgba : Rgba64), img.pixel_format = BPP32_CMYK →
      rowVals img collab row rgba =
        .ok ((List.range img.width).map (fun p =>
          let c := collab.cmyk
            (byteAt img.pixels (img.bytes_per_line * row + 4 * p))
            (byteAt img.pixels (img.bytes_per_line * row + 4 * p + 1))
            (byteAt img.pixels (img.bytes_per_line * row + 4 * p + 2))
            (byteAt img.pixels (img.bytes_per_line * row + 4 * p + 3))
          (⟨c.1 % 256 * 257, c.2.1 % 256 * 257, c.2.2 % 256 * 257, 65535⟩ :
            Rgba64)), rgba)) ∧
    (∀ (img : sail_image) (collab : ManipCollaborators) (row : Nat)
        (rgba : Rgba64), img.pixel_format = BPP24_YCBCR →
      rowVals img collab row rgba =
        .ok ((List.range img.width).map (fun p =>
          let c := collab.ycbcr
            (byteAt img.pixels (img.bytes_per_line * row + 3 * p))
            (byteAt img.pixels (img.bytes_per_line * row + 3 * p + 1))
            (byteAt img.pixels (img.bytes_per_line * row + 3 * p + 2))
          (⟨c.1 % 256 * 257, c.2.1 % 256 * 257, c.2.2 % 256 * 257, 65535⟩ :
            Rgba64)), rgba)) ∧
    Except.map (fun i => i.pixels)
      (sail_convert_image_to_bpp64_rgba_kind imgIndexedExample BPP64_RGBA
        zeroCollaborators [0, 0, 0, 0] ⟨0, 0, 0, 0⟩) =
      .ok [65535, 0, 32896, 65535] ∧
    Except.map (fun i => i.pixels)
      (sail_convert_image_to_bpp64_rgba_kind imgRgb24Pixel123 BPP64_RGBA
        zeroCollaborators [0, 0, 0, 0] ⟨0, 0, 0, 0⟩) =
      .ok [1 * 257, 2 * 257, 3 * 257, 65535] ∧
    Except.map (fun i => i.pixels)
      (sail_convert_image_to_bpp64_rgba_kind imgRgba32Example BPP64_RGBA
        zeroCollaborators [0, 0, 0, 0] ⟨0, 0, 0, 0⟩) =
      .ok [1 * 257, 2 * 257, 3 * 257, 4 * 257] ∧
    Except.map (fun i => i.pixels)
      (sail_convert_image_to_bpp64_rgba_kind imgCmykExample BPP64_RGBA
        constCollaborators [0, 0, 0, 0] ⟨0, 0, 0, 0⟩) =
      .ok [200 * 257, 10 * 257, 0 * 257, 65535] ∧
    Except.map (fun i => i.pixels)
      (sail_convert_image_to_bpp64_rgba_kind imgYcbcrExample BPP64_RGBA
        constCollaborators [0, 0, 0, 0] ⟨0, 0, 0, 0⟩) =
      .ok [5 * 257, 255 * 257, 0 * 257, 65535] := by
  refine ⟨fun v hv => ?_, rfl, rfl, fun pal i c hpf hi => ?_,
    fun pal i c hpf hi => ?_, fun input inBase width ri gi bi p hp => ?_,
    fun input inBase width ri gi bi ai p hp => ?_,
    fun img collab row rgba hpf => ?_, fun img collab row rgba hpf => ?_,
    rfl, rfl, rfl, rfl, rfl⟩
  · unfold spread_gray8_to_rgba64
    rw [Nat.mod_eq_of_lt hv]
  · unfold get_palette_rgba64
    rw [if_neg (Nat.not_le.mpr hi), hpf]
  · unfold get_palette_rgba64
    rw [if_neg (Nat.not_le.mpr hi), hpf]
  · unfold vals_rgb24_kind
    rw [List.getD_eq_getElem?_getD, List.getElem?_map, List.getElem?_range hp]
    rfl
  · unfold vals_rgba32_kind
    rw [List.getD_eq_getElem?_getD, List.getElem?_map, List.getElem?_range hp]
    rfl
  · simp [rowVals, hpf]
  · simp [rowVals, hpf]

/-- Witness for C1: the ×257 facts instantiated at v = 128, at entry 0 of
concrete 24-bit-RGB and 32-bit-RGBA palettes, and at pixel 0 of concrete
RGB24-kind and RGBA32-kind scans. -/
theorem promote_8bit_by_257_witness :
    spread_gray8_to_rgba64 128 = ⟨128 * 257, 128 * 257, 128 * 257, 65535⟩ ∧
    get_palette_rgba64
        { pixel_format := BPP24_RGB, color_count := 3,
          data := [255, 0, 128, 0, 0, 0, 1, 2, 3] } 0 ⟨9, 9, 9, 9⟩ =
      .ok ⟨byteAt [255, 0, 128, 0, 0, 0, 1, 2, 3] 0 * 257,
           byteAt [255, 0, 128, 0, 0, 0, 1, 2, 3] 1 * 257,
           byteAt [255, 0, 128, 0, 0, 0, 1, 2, 3] 2 * 257, 65535⟩ ∧
    get_palette_rgba64
        { pixel_format := BPP32_RGBA, color_count := 1,
          data := [1, 2, 3, 4] } 0 ⟨9, 9, 9, 9⟩ =
      .ok ⟨byteAt [1, 2, 3, 4] 0 * 257, byteAt [1, 2, 3, 4] 1 * 257,
           byteAt [1, 2, 3, 4] 2 * 257, byteAt [1, 2, 3, 4] 3 * 257⟩ ∧
    (vals_rgb24_kind [1, 2, 3] 0 1 0 1 2).getD 0 ⟨0, 0, 0, 0⟩ =
      ⟨byteAt [1, 2, 3] (0 + 3 * 0 + 0) * 257,
       byteAt [1, 2, 3] (0 + 3 * 0 + 1) * 257,
       byteAt [1, 2, 3] (0 + 3 * 0 + 2) * 257, 65535⟩ ∧
    (vals_rgba32_kind [1, 2, 3, 4] 0 1 0 1 2 3).getD 0 ⟨0, 0, 0, 0⟩ =
      ⟨byteAt [1, 2, 3, 4] (0 + 4 * 0 + 0) * 257,
       byteAt [1, 2, 3, 4] (0 + 4 * 0 + 1) * 257,
       byteAt [1, 2, 3, 4] (0 + 4 * 0 + 2) * 257,
       byteAt [1, 2, 3, 4] (0 + 4 * 0 + 3) * 257⟩ :=
  ⟨promote_8bit_by_257.1 128 (by decide),
   promote_8bit_by_257.2.2.2.1
     { pixel_format := BPP24_RGB, color_count := 3,
       data := [255, 0, 128, 0, 0, 0, 1, 2, 3] } 0 ⟨9, 9, 9, 9⟩ rfl (by decide),
   promote_8bit_by_257.2.2.2.2.1
     { pixel_format := BPP32_RGBA, color_count := 1,
       data := [1, 2, 3, 4] } 0 ⟨9, 9, 9, 9⟩ rfl (by decide),
   promote_8bit_by_257.2.2.2.2.2.1 [1, 2, 3] 0 1 0 1 2 0 (by decide),
   promote_8bit_by_257.2.2.2.2.2.2.1 [1, 2, 3, 4] 0 1 0 1 2 3 0 (by decide)⟩

theorem mem_fill_rgba64_pixel_neg (base r g b : Nat) (a : Int) (ha : a < 0)
    (rv gv bv av : Nat) (w : Nat × Nat)
    (hw : w ∈ fill_rgba64_pixel base r g b a rv gv bv av) :
    w.1 = base + r ∨ w.1 = base + g ∨ w.1 = base + b := by
  unfold fill_rgba64_pixel at hw
  rw [if_neg (by omega)] at hw
  simp only [List.append_nil, List.mem_cons, List.not_mem_nil, or_false] at hw
  rcases hw with h | h | h <;> rw [h] <;> simp

theorem mem_scanWrites_ex (rowBase r g b : Nat) (a : Int) (vals : List Rgba64)
    (w : Nat × Nat) (hw : w ∈ scanWrites rowBase r g b a vals) :
    ∃ (p : Nat) (val : Rgba64), w ∈ fill_rgba64_pixel (rowBase + 4 * p) r g b a
      val.component1 val.component2 val.component3 val.component4 := by
  unfold scanWrites at hw
  obtain ⟨pv, _, hw2⟩ := List.mem_flatMap.mp hw
  exact ⟨pv.1, pv.2, hw2⟩

theorem rowWrites_slot (img : sail_image) (collab : ManipCollaborators)
    (r g b : Nat) (a : Int) (ha : a < 0) (out_bpl row : Nat) (rgba : Rgba64)
    (ws : List (Nat × Nat)) (rgba' : Rgba64)
    (hrow : rowWrites img collab r g b a out_bpl row rgba = .ok (ws, rgba'))
    (w : Nat × Nat) (hw : w ∈ ws) :
    ∃ p, w.1 = out_bpl * row / 2 + 4 * p + r ∨
      w.1 = out_bpl * row / 2 + 4 * p + g ∨
      w.1 = out_bpl * row / 2 + 4 * p + b := by
  unfold rowWrites at hrow
  cases hv : rowVals img collab row rgba with
  | error e => rw [hv] at hrow; exact absurd hrow (by simp [Except.bind])
  | ok vr =>
      rw [bind_of_ok hv] at hrow
      simp only [Except.ok.injEq, Prod.mk.injEq] at hrow
      obtain ⟨h1, -⟩ := hrow
      subst h1
      obtain ⟨p, val, hf⟩ := mem_scanWrites_ex _ r g b a _ w hw
      exact ⟨p, mem_fill_rgba64_pixel_neg _ r g b a ha _ _ _ _ w hf⟩

theorem rowsWrites_slot (img : sail_image) (collab : ManipCollaborators)
    (r g b : Nat) (a : Int) (ha : a < 0) (out_bpl : Nat)
    (hstride : out_bpl % 8 = 0) :
    ∀ (rows : List Nat) (rgba : Rgba64) (ws : List (Nat × Nat)),
      rowsWrites img collab r g b a out_bpl rows rgba = .ok ws →
      ∀ w ∈ ws, w.1 % 4 = r % 4 ∨ w.1 % 4 = g % 4 ∨ w.1 % 4 = b % 4 := by
  intro rows
  induction rows with
  | nil =>
      intro rgba ws h w hw
      simp only [rowsWrites, Except.ok.injEq] at h
      subst h
      simp at hw
  | cons t rest ih =>
      intro rgba ws h w hw
      unfold rowsWrites at h
      cases hrw : rowWrites img collab r g b a out_bpl t rgba with
      | error e => rw [hrw] at h; exact absurd h (by simp [Except.bind])
      | ok wr =>
          rw [bind_of_ok hrw] at h
          cases hrs : rowsWrites img collab r g b a out_bpl rest wr.2 with
          | error e => rw [hrs] at h; exact absurd h (by simp [Except.bind])
          | ok tail =>
              rw [bind_of_ok hrs] at h
              simp only [Except.ok.injEq] at h
              subst h
              rcases List.mem_append.mp hw with hl | hr
              · obtain ⟨p, hp⟩ := rowWrites_slot img collab r g b a ha out_bpl t
                  rgba wr.1 wr.2 (by rw [hrw]) w hl
                obtain ⟨k, hk⟩ := (Nat.dvd_of_mod_eq_zero hstride : 8 ∣ out_bpl)
                have hbase : out_bpl * t / 2 = 4 * (k * t) := by
                  rw [hk, show 8 * k * t = 4 * (k * t) * 2 by ring,
                    Nat.mul_div_cancel _ (by omega)]
                rw [hbase] at hp
                rcases hp with h1 | h1 | h1 <;> omega
              · exact ih wr.2 tail hrs w hr

/-- C2 (counterexample): converting a 1x1 black BPP24-RGB image to the
alpha-less target BPP64-RGBX leaves the 4th channel slot holding the fresh
allocation's prior word 7 instead of the claimed opaque maximum 65535. -/
theorem padding_slot_counterexample :
    Except.map (fun i => i.pixels)
      (sail_convert_image_to_bpp64_rgba_kind imgRgb24Example BPP64_RGBX
        zeroCollaborators [7, 7, 7, 7] ⟨0, 0, 0, 0⟩) = .ok [0, 0, 0, 7] ∧
    (7 : Nat) ≠ 65535 := ⟨rfl, by decide⟩

/-- C2 (amended): for the four alpha-less 64-bit targets the conversion
engine never stores to the 4th (padding) channel slot — its stores hit only
the three color slots of each pixel — so at every output index off the three
color slots the buffer keeps its prior content (the unspecified fresh
allocation for the allocating entry point, the old pixel data for the
in-place one), rather than being written as opaque 65535. -/
theorem padding_slot_left_unwritten (img : sail_image) (opf : SailPixelFormat)
    (collab : ManipCollaborators) (fresh : List Nat) (rgba0 : Rgba64)
    (r g b : Nat)
    (hperm : verify_and_construct_rgba64_indexes opf = .ok (r, g, b, -1))
    (j : Nat) (hj : j % 4 ≠ r ∧ j % 4 ≠ g ∧ j % 4 ≠ b) :
    (∀ res, sail_convert_image_to_bpp64_rgba_kind img opf collab fresh rgba0 =
        .ok res → res.pixels.getD j 0 = fresh.getD j 0) ∧
    (img.bytes_per_line % 8 = 0 →
      ∀ res, sail_convert_image_to_bpp64_rgba_kind_in_place img opf collab
          rgba0 = .ok res →
        res.pixels.getD j 0 = img.pixels.getD j 0) := by
  have hr4 : r < 4 ∧ g < 4 ∧ b < 4 := by
    cases opf <;> simp [verify_and_construct_rgba64_indexes] at hperm <;> omega
  have hslots : ∀ (out_bpl : Nat), out_bpl % 8 = 0 →
      ∀ (ws : List (Nat × Nat)),
        to_bpp64_writes img collab r g b (-1) out_bpl rgba0 = .ok ws →
        ∀ w ∈ ws, w.1 ≠ j := by
    intro out_bpl hst ws hws w hw heq
    have := rowsWrites_slot img collab r g b (-1) (by omega) out_bpl hst
      (List.range img.height) rgba0 ws hws w hw
    omega
  constructor
  · intro res hconv
    unfold sail_convert_image_to_bpp64_rgba_kind at hconv
    cases hchk : sail_check_image_valid img with
    | error e => rw [hchk] at hconv; exact absurd hconv (by simp [Except.bind])
    | ok u =>
        rw [bind_of_ok hchk, bind_of_ok hperm] at hconv
        rw [bind_of_ok (rfl :
          sail_bytes_per_line img.width opf = .ok _)] at hconv
        have hst : (img.width * bitsPerPixel opf + 7) / 8 % 8 = 0 := by
          have h64 := verify_ok_bits64 opf _ hperm
          rw [h64]
          omega
        unfold to_bpp64_rgba_kind at hconv
        cases hws : to_bpp64_writes img collab r g b (-1)
            ((img.width * bitsPerPixel opf + 7) / 8) rgba0 with
        | error e => rw [hws] at hconv; exact absurd hconv (by simp [Except.bind])
        | ok ws =>
            rw [bind_of_ok hws, bind_of_ok rfl] at hconv
            simp only [Except.ok.injEq] at hconv
            subst hconv
            exact applyWrites_getD_not_written ws fresh j 0
              (hslots _ hst ws hws)
  · intro hstride res hconv
    unfold sail_convert_image_to_bpp64_rgba_kind_in_place at hconv
    cases hchk : sail_check_image_valid img with
    | error e => rw [hchk] at hconv; exact absurd hconv (by simp [Except.bind])
    | ok u =>
        rw [bind_of_ok hchk, bind_of_ok hperm] at hconv
        by_cases hsame : img.pixel_format = opf
        · rw [if_pos hsame] at hconv
          simp only [Except.ok.injEq] at hconv
          subst hconv
          rfl
        · rw [if_neg hsame] at hconv
          unfold sail_greater_equal_bits_per_pixel at hconv
          rw [bind_of_ok rfl] at hconv
          by_cases hfit : bitsPerPixel opf ≤ bitsPerPixel img.pixel_format
          · rw [if_pos (by simpa using hfit)] at hconv
            unfold to_bpp64_rgba_kind at hconv
            cases hws : to_bpp64_writes img collab r g b (-1)
                img.bytes_per_line rgba0 with
            | error e =>
                rw [hws] at hconv; exact absurd hconv (by simp [Except.bind])
            | ok ws =>
                rw [bind_of_ok hws, bind_of_ok rfl] at hconv
                simp only [Except.ok.injEq] at hconv
                subst hconv
                exact applyWrites_getD_not_written ws img.pixels j 0
                  (hslots _ hstride ws hws)
          · rw [if_neg (by simpa using hfit)] at hconv
            exact Except.noConfusion hconv

/-- Witness for C2's amended statement: at the concrete RGBX conversion of
the counterexample, output index 3 (the padding slot) keeps the fresh
buffer's content. -/
theorem padding_slot_left_unwritten_witness :
    ∃ res, sail_convert_image_to_bpp64_rgba_kind imgRgb24Example BPP64_RGBX
        zeroCollaborators [7, 7, 7, 7] ⟨0, 0, 0, 0⟩ = .ok res ∧
      res.pixels.getD 3 0 = ([7, 7, 7, 7] : List Nat).getD 3 0 :=
  ⟨_, rfl, (padding_slot_left_unwritten imgRgb24Example BPP64_RGBX
    zeroCollaborators [7, 7, 7, 7] ⟨0, 0, 0, 0⟩ 0 1 2 rfl 3 (by decide)).1 _ rfl⟩

theorem rowsWrites_of_pure (img : sail_image) (collab : ManipCollaborators)
    (r g b : Nat) (a : Int) (out_bpl : Nat) (V : Nat → List Rgba64)
    (hV : ∀ row rgba, rowVals img collab row rgba = .ok (V row, rgba)) :
    ∀ (rows : List Nat) (rgba : Rgba64),
      rowsWrites img collab r g b a out_bpl rows rgba =
        .ok (rows.flatMap fun t => scanWrites (out_bpl * t / 2) r g b a (V t)) := by
  intro rows
  induction rows with
  | nil => intro rgba; rfl
  | cons t rest ih =>
      intro rgba
      unfold rowsWrites
      rw [bind_of_ok (rowWrites_ok_of_rowVals img collab r g b a out_bpl t rgba
        (V t) rgba (hV t rgba))]
      rw [bind_of_ok (ih rgba), List.flatMap_cons]

theorem mem_scanWrites_ident (pixels : List Nat) (B n r g b aN : Nat)
    (w : Nat × Nat)
    (hw : w ∈ scanWrites B r g b (Int.ofNat aN)
      (vals_rgba64_kind pixels B n r g b aN)) :
    ∃ p s, p < n ∧ (s = r ∨ s = g ∨ s = b ∨ s = aN) ∧
      w = (B + 4 * p + s, wordAt pixels (B + 4 * p + s)) := by
  unfold scanWrites at hw
  obtain ⟨pv, hpv, hw2⟩ := List.mem_flatMap.mp hw
  obtain ⟨p, val⟩ := pv
  rw [List.mk_mem_enum_iff_getElem?] at hpv
  unfold vals_rgba64_kind at hpv
  rw [List.getElem?_map] at hpv
  by_cases hpn : p < n
  · rw [List.getElem?_range hpn] at hpv
    simp only [Option.map_some'] at hpv
    injection hpv with hval
    subst hval
    unfold fill_rgba64_pixel at hw2
    rw [if_pos (show (0 : Int) ≤ Int.ofNat aN from Int.ofNat_le.2 (Nat.zero_le aN))] at hw2
    simp only [List.mem_append, List.mem_cons, List.not_mem_nil, or_false] at hw2
    rcases hw2 with (h | h | h) | h
    · exact ⟨p, r, hpn, Or.inl rfl, by rw [h]⟩
    · exact ⟨p, g, hpn, Or.inr (Or.inl rfl), by rw [h]⟩
    · exact ⟨p, b, hpn, Or.inr (Or.inr (Or.inl rfl)), by rw [h]⟩
    · exact ⟨p, aN, hpn, Or.inr (Or.inr (Or.inr rfl)), by rw [h]; simp⟩
  · rw [List.getElem?_eq_none (by simpa using Nat.le_of_not_lt hpn)] at hpv
    exact absurd hpv (by simp)

theorem cov_scanWrites_ident (pixels : List Nat) (B n r g b aN : Nat)
    (p s : Nat) (hp : p < n) (hs : s = r ∨ s = g ∨ s = b ∨ s = aN) :
    ((B + 4 * p + s, wordAt pixels (B + 4 * p + s)) : Nat × Nat) ∈
      scanWrites B r g b (Int.ofNat aN) (vals_rgba64_kind pixels B n r g b aN) := by
  unfold scanWrites
  apply List.mem_flatMap.mpr
  refine ⟨(p, ⟨wordAt pixels (B + 4 * p + r), wordAt pixels (B + 4 * p + g),
    wordAt pixels (B + 4 * p + b), wordAt pixels (B + 4 * p + aN)⟩), ?_, ?_⟩
  · rw [List.mk_mem_enum_iff_getElem?]
    unfold vals_rgba64_kind
    rw [List.getElem?_map, List.getElem?_range hp]
    rfl
  · unfold fill_rgba64_pixel
    rw [if_pos (show (0 : Int) ≤ Int.ofNat aN from Int.ofNat_le.2 (Nat.zero_le aN))]
    rcases hs with h | h | h | h <;> subst h <;> simp

/-- C8 (counterexample): converting the 1x1 BPP64-RGBX image (1, 2, 3, 9) to
the same format BPP64-RGBX through the allocating entry point yields
(1, 2, 3, 0) when the fresh allocation happens to contain zeros — the
padding word is never written — so the round trip is not byte-identical. -/
theorem same_format_roundtrip_counterexample :
    Except.map (fun i => i.pixels)
      (sail_convert_image_to_bpp64_rgba_kind imgRgbx64Example BPP64_RGBX
        zeroCollaborators [0, 0, 0, 0] ⟨0, 0, 0, 0⟩) = .ok [1, 2, 3, 0] ∧
    imgRgbx64Example.pixels = [1, 2, 3, 9] ∧
    ([1, 2, 3, 0] : List Nat) ≠ [1, 2, 3, 9] := ⟨rfl, rfl, by decide⟩

/-- C8 (amended): converting a non-indexed image from one of the eight
canonical 64-bit permutations A to the same format A is byte-identical where
the code guarantees it: the in-place entry point returns immediately with
the buffer untouched for all eight permutations, and the allocating entry
point reproduces the source buffer exactly for the four alpha-bearing
permutations (RGBA, BGRA, ARGB, ABGR); for the four alpha-less permutations
the allocating path leaves each pixel's padding slot holding the fresh
allocation's unspecified content, so byte-identity is not guaranteed there
(see the counterexample). -/
theorem same_format_roundtrip (img : sail_image) (opf : SailPixelFormat)
    (collab : ManipCollaborators) (rgba0 : Rgba64) (fresh : List Nat)
    (hvalid : sail_check_image_valid img = .ok ())
    (hsame : img.pixel_format = opf) :
    ((∃ t, verify_and_construct_rgba64_indexes opf = .ok t) →
      sail_convert_image_to_bpp64_rgba_kind_in_place img opf collab rgba0 =
        .ok img) ∧
    ((opf = BPP64_RGBA ∨ opf = BPP64_BGRA ∨ opf = BPP64_ARGB ∨
        opf = BPP64_ABGR) →
      img.bytes_per_line = img.width * 8 →
      img.pixels.length = img.height * (img.width * 4) →
      fresh.length = img.height * (img.width * 4) →
      (∀ x ∈ img.pixels, x < 65536) →
      ∃ res, sail_convert_image_to_bpp64_rgba_kind img opf collab fresh
          rgba0 = .ok res ∧ res.pixels = img.pixels) := by
  constructor
  · rintro ⟨t, ht⟩
    unfold sail_convert_image_to_bpp64_rgba_kind_in_place
    rw [bind_of_ok hvalid, bind_of_ok ht]
    rw [if_pos hsame]
  · intro hmem hbpl hlen hfresh hwf
    have main : ∀ r g b aN : Nat,
        (∀ s, s < 4 → s = r ∨ s = g ∨ s = b ∨ s = aN) →
        (∀ row rgba, rowVals img collab row rgba =
          .ok (vals_rgba64_kind img.pixels (img.bytes_per_line * row / 2)
            img.width r g b aN, rgba)) →
        verify_and_construct_rgba64_indexes opf = .ok (r, g, b, Int.ofNat aN) →
        ∃ res, sail_convert_image_to_bpp64_rgba_kind img opf collab fresh
            rgba0 = .ok res ∧ res.pixels = img.pixels := by
      intro r g b aN hcover hV ht
      have h64 : bitsPerPixel opf = 64 := verify_ok_bits64 opf _ ht
      have hout : (img.width * bitsPerPixel opf + 7) / 8 = img.width * 8 := by
        rw [h64]; omega
      have hbase : ∀ t : Nat, (img.width * bitsPerPixel opf + 7) / 8 * t / 2 =
          img.bytes_per_line * t / 2 := by
        intro t; rw [hout, hbpl]
      have hB : ∀ t : Nat, img.bytes_per_line * t / 2 = 4 * (img.width * t) := by
        intro t
        rw [hbpl, show img.width * 8 * t = 4 * (img.width * t) * 2 by ring,
          Nat.mul_div_cancel _ (by omega : (0:Nat) < 2)]
      have hws := rowsWrites_of_pure img collab r g b (Int.ofNat aN)
        ((img.width * bitsPerPixel opf + 7) / 8)
        (fun t => vals_rgba64_kind img.pixels (img.bytes_per_line * t / 2)
          img.width r g b aN)
        hV (List.range img.height) rgba0
      set WS := (List.range img.height).flatMap
        (fun t => scanWrites ((img.width * bitsPerPixel opf + 7) / 8 * t / 2)
          r g b (Int.ofNat aN)
          (vals_rgba64_kind img.pixels (img.bytes_per_line * t / 2) img.width
            r g b aN)) with hWS
      have hfwd : ∀ w ∈ WS, ∃ t p s : Nat, t < img.height ∧ p < img.width ∧
          (s = r ∨ s = g ∨ s = b ∨ s = aN) ∧
          w = (img.bytes_per_line * t / 2 + 4 * p + s,
            wordAt img.pixels (img.bytes_per_line * t / 2 + 4 * p + s)) := by
        intro w hwWS
        rw [hWS] at hwWS
        obtain ⟨t, htmem, hsw⟩ := List.mem_flatMap.mp hwWS
        rw [hbase t] at hsw
        obtain ⟨p, s, hp, hs, hws'⟩ := mem_scanWrites_ident img.pixels _
          img.width r g b aN w hsw
        exact ⟨t, p, s, List.mem_range.mp htmem, hp, hs, hws'⟩
      have hconv : ∃ res,
          sail_convert_image_to_bpp64_rgba_kind img opf collab fresh rgba0 =
            .ok res ∧ res.pixels = applyWrites fresh WS := by
        unfold sail_convert_image_to_bpp64_rgba_kind
        rw [bind_of_ok hvalid, bind_of_ok ht]
        dsimp only
        rw [bind_of_ok (rfl : sail_bytes_per_line img.width opf = .ok _)]
        unfold to_bpp64_rgba_kind to_bpp64_writes
        rw [bind_of_ok hws, bind_of_ok rfl]
        exact ⟨_, rfl, rfl⟩
      obtain ⟨res, hres, hpix⟩ := hconv
      refine ⟨res, hres, ?_⟩
      rw [hpix]
      apply List.ext_getElem
      · rw [applyWrites_length, hfresh, hlen]
      · intro i h1 h2
        have hiL : i < img.height * (img.width * 4) := by
          rw [applyWrites_length, hfresh] at h1; exact h1
        rw [← List.getD_eq_getElem _ 0 h1, ← List.getD_eq_getElem _ 0 h2]
        have hvalw : ∀ w ∈ WS, w.1 = i → w.2 % 65536 = wordAt img.pixels i := by
          intro w hwWS hw1
          obtain ⟨t, p, s, -, -, -, hws'⟩ := hfwd w hwWS
          rw [hws'] at hw1 ⊢
          dsimp only at hw1 ⊢
          rw [hw1]
          unfold wordAt
          omega
        have hcovw : ∃ w ∈ WS, w.1 = i := by
          rcases Nat.eq_zero_or_pos img.width with hw0 | hwpos
          · rw [hw0] at hiL; simp at hiL
          · have h4w : 0 < 4 * img.width := by omega
            have hi1 : 4 * img.width * (i / (4 * img.width)) +
                i % (4 * img.width) = i := Nat.div_add_mod i (4 * img.width)
            set t := i / (4 * img.width) with hatdef
            set q := i % (4 * img.width) with hqdef
            have hq4 : q < 4 * img.width := by rw [hqdef]; exact Nat.mod_lt _ h4w
            have hq1 : 4 * (q / 4) + q % 4 = q := Nat.div_add_mod q 4
            set p := q / 4 with hpdef
            set s := q % 4 with hsdef
            have hs4 : s < 4 := by rw [hsdef]; exact Nat.mod_lt _ (by omega)
            have hp : p < img.width := by
              rw [hpdef]
              exact (Nat.div_lt_iff_lt_mul (by omega)).mpr (by
                rw [show img.width * 4 = 4 * img.width by ring]; exact hq4)
            have ht4 : t < img.height := by
              rw [hatdef]
              exact (Nat.div_lt_iff_lt_mul h4w).mpr (by
                rw [show img.height * (4 * img.width) =
                  img.height * (img.width * 4) by ring]; exact hiL)
            refine ⟨(img.bytes_per_line * t / 2 + 4 * p + s,
              wordAt img.pixels (img.bytes_per_line * t / 2 + 4 * p + s)),
              ?_, ?_⟩
            · rw [hWS]
              refine List.mem_flatMap.mpr ⟨t, List.mem_range.mpr ht4, ?_⟩
              rw [hbase t]
              exact cov_scanWrites_ident img.pixels _ img.width r g b aN p s
                hp (hcover s hs4)
            · show img.bytes_per_line * t / 2 + 4 * p + s = i
              calc img.bytes_per_line * t / 2 + 4 * p + s
                  = 4 * (img.width * t) + (4 * p + s) := by rw [hB t]; ring
                _ = 4 * img.width * t + q := by rw [hq1]; ring
                _ = i := hi1
        have hval := applyWrites_getD_covered WS fresh i 0
          (wordAt img.pixels i) hvalw hcovw (by rw [hfresh]; exact hiL)
        rw [hval]
        unfold wordAt
        have hmem2 : img.pixels.getD i 0 ∈ img.pixels := by
          rw [List.getD_eq_getElem _ 0 h2]
          exact List.getElem_mem h2
        have hlt := hwf _ hmem2
        omega
    rcases hmem with h | h | h | h <;> subst h
    · exact main 0 1 2 3 (by omega)
        (fun row rgba => by simp [rowVals, hsame]) rfl
    · exact main 2 1 0 3 (by omega)
        (fun row rgba => by simp [rowVals, hsame]) rfl
    · exact main 1 2 3 0 (by omega)
        (fun row rgba => by simp [rowVals, hsame]) rfl
    · exact main 3 2 1 0 (by omega)
        (fun row rgba => by simp [rowVals, hsame]) rfl

/-- Witness for C8's amended statement at the 1x1 BPP64-RGBA image
(1, 2, 3, 9): the in-place same-format conversion is a no-op and the
allocating one reproduces the pixel words. -/
theorem same_format_roundtrip_witness :
    (sail_convert_image_to_bpp64_rgba_kind_in_place imgRgba64Example BPP64_RGBA
        zeroCollaborators ⟨0, 0, 0, 0⟩ = .ok imgRgba64Example) ∧
    ∃ res, sail_convert_image_to_bpp64_rgba_kind imgRgba64Example BPP64_RGBA
        zeroCollaborators [0, 0, 0, 0] ⟨0, 0, 0, 0⟩ =
      .ok res ∧ res.pixels = imgRgba64Example.pixels :=
  ⟨(same_format_roundtrip imgRgba64Example BPP64_RGBA zeroCollaborators
      ⟨0, 0, 0, 0⟩ [0, 0, 0, 0] rfl rfl).1 ⟨(0, 1, 2, 3), rfl⟩,
   (same_format_roundtrip imgRgba64Example BPP64_RGBA zeroCollaborators
      ⟨0, 0, 0, 0⟩ [0, 0, 0, 0] rfl rfl).2 (Or.inl rfl) rfl rfl rfl (by decide)⟩
